import Mathlib

/-!
Verification of the validate-and-refine control loop of the Creative Media
Co-Pilot (src/main.py): campaign state, writer / reviewer / art-director
nodes, the routing decision, and the workflow driver.

External collaborators (the two text-generation calls, the image service and
the wall clock) are modelled as inputs supplied to each step: a call either
returns a text (some t) or fails (none), in which case the code takes its
deterministic fallback path, exactly as in the source.
-/

namespace CreativeCoPilot

/-- Python `str.upper()` (ASCII range, as in the drafts and verdicts at play):
uppercase every character. -/
def pyUpper (s : String) : String :=
  ⟨s.data.map Char.toUpper⟩

/-- Python `str.lower()` (ASCII range): lowercase every character. -/
def pyLower (s : String) : String :=
  ⟨s.data.map Char.toLower⟩

/-- Python `str.strip()`: remove leading and trailing whitespace. -/
def pyStrip (s : String) : String :=
  ⟨(((s.data.dropWhile Char.isWhitespace).reverse).dropWhile Char.isWhitespace).reverse⟩

/-- Python slicing `s[:n]`: the first `n` characters. -/
def pyTake (s : String) (n : Nat) : String :=
  ⟨s.data.take n⟩

/-- Python `len(s)`: the number of characters. -/
def pyLen (s : String) : Nat :=
  s.data.length

/-- Substring test on character lists: does the haystack start with the needle?
Models the prefix part of the Python `in` operator on strings. -/
def charsStartWith : List Char → List Char → Bool
  | _, [] => true
  | [], _ :: _ => false
  | a :: as, b :: bs => a == b && charsStartWith as bs

/-- Does the needle occur contiguously anywhere in the haystack?
Models the Python `in` operator on character lists. -/
def charsContain : List Char → List Char → Bool
  | [], needle => needle.isEmpty
  | a :: as, needle => charsStartWith (a :: as) needle || charsContain as needle

/-- Python `needle in haystack` on strings: contiguous substring test. -/
def strContains (haystack needle : String) : Bool :=
  charsContain haystack.data needle.data

/-- One entry of `agent_execution_log`, as built by `log_agent_action`
(src/main.py lines 175-188). The wall-clock timestamp is an input. -/
structure LogEntry where
  timestamp : String
  agent : String
  action : String
  result_length : Nat
  status : String
  iteration : Nat

/-- The shared workflow state `CreativeWorkflowState` (src/main.py lines 50-75).
The float field `workflow_start_time` is wall-clock data owned by the driver
and is carried outside the per-step state here. -/
structure CreativeWorkflowState where
  user_prompt : String
  draft_text : String
  review_feedback : List String
  final_approved_text : Option String
  image_url : String
  retries : Nat
  current_iteration : Nat
  agent_execution_log : List LogEntry
  compliance_flags : List String
  is_approved : Bool

/-- `log_agent_action` (src/main.py lines 175-188): builds one audit entry;
`result_length` is the length of the result text, `iteration` is read from the
state that was passed in (before any update from the running node). -/
def log_agent_action (state : CreativeWorkflowState)
    (agent_name action result status ts : String) : LogEntry :=
  { timestamp := ts
    agent := agent_name
    action := action
    result_length := pyLen result
    status := status
    iteration := state.current_iteration }

/-- The draft text produced by `writer_node` (src/main.py lines 237-261):
the trimmed LLM response on success, otherwise the deterministic fallback
template, which switches on whether any review feedback exists. -/
def writerDraft (state : CreativeWorkflowState) (llm : Option String) : String :=
  match llm with
  | some text => pyStrip text
  | none =>
    let product_short := pyTake state.user_prompt 40
    if state.review_feedback ≠ [] then
      "🌟 Discover " ++ product_short ++ "! Eco-conscious. Quality crafted. Get yours now! 💚"
    else
      "✨ NEW: " ++ product_short ++ "! Perfect for the modern lifestyle. Shop today! 🚀"

/-- The log status recorded by `writer_node`: SUCCESS on an LLM response,
FALLBACK on the templated path (src/main.py lines 245, 261). -/
def writerStatus (llm : Option String) : String :=
  match llm with
  | some _ => "SUCCESS"
  | none => "FALLBACK"

/-- `writer_node` (src/main.py lines 191-273): produces a draft, increments
`current_iteration` and `retries` by one each, and appends one log entry. -/
def writer_node (state : CreativeWorkflowState) (llm : Option String)
    (ts : String) : CreativeWorkflowState :=
  { state with
    draft_text := writerDraft state llm
    current_iteration := state.current_iteration + 1
    retries := state.retries + 1
    agent_execution_log := state.agent_execution_log ++
      [log_agent_action state "Writer" "copy_generation"
        (writerDraft state llm) (writerStatus llm) ts] }

/-- The banned claim phrases of the rule-based fallback checker
(src/main.py lines 347-351), in source order. -/
def banned_phrases : List String :=
  ["100%", "guarantee", "guaranteed", "miracle", "instant results",
   "best in the world", "never", "always works", "scientifically proven",
   "approved by", "clinically tested"]

/-- The negative-vocabulary words of the rule-based fallback checker
(src/main.py line 359). -/
def negative_words : List String :=
  ["toxic", "harmful", "dangerous", "problem", "issue"]

/-- The rule-based fallback compliance check (src/main.py lines 342-367):
issues are collected in order (first banned phrase found, tone, length) and
the verdict is the first issue, or APPROVED when none. -/
def ruleBasedFeedback (draft : String) : String :=
  let draft_lower := pyLower draft
  let claimIssues : List String :=
    match banned_phrases.find? (fun p => strContains draft_lower p) with
    | some p => ["[CLAIM] Remove unverified claim: \x27" ++ p ++ "\x27"]
    | none => []
  let toneIssues : List String :=
    if negative_words.any (fun w => strContains draft_lower w) then
      ["[TONE] Avoid negative language"]
    else []
  let lengthIssues : List String :=
    if pyLen draft > 280 then
      ["[CLARITY] Keep under 280 characters for social media"]
    else []
  let issues := claimIssues ++ toneIssues ++ lengthIssues
  issues.headD "APPROVED"

/-- The verdict string appended by `reviewer_node` (src/main.py lines 326-368):
the trimmed LLM response on success, otherwise the rule-based fallback. -/
def reviewerVerdict (state : CreativeWorkflowState) (llm : Option String) : String :=
  match llm with
  | some text => pyStrip text
  | none => ruleBasedFeedback state.draft_text

/-- The log status recorded by `reviewer_node` (src/main.py lines 334, 368). -/
def reviewerStatus (llm : Option String) : String :=
  match llm with
  | some _ => "SUCCESS"
  | none => "FALLBACK"

/-- `reviewer_node` (src/main.py lines 276-392): appends exactly one verdict
to `review_feedback`; `is_approved` is the substring test for APPROVED on the
uppercased verdict; on approval the draft becomes `final_approved_text`; on a
rejection the verdict is appended to `compliance_flags` unless already there. -/
def reviewer_node (state : CreativeWorkflowState) (llm : Option String)
    (ts : String) : CreativeWorkflowState :=
  let feedback := reviewerVerdict state llm
  let approvedNow := strContains (pyUpper feedback) "APPROVED"
  { state with
    review_feedback := state.review_feedback ++ [feedback]
    final_approved_text :=
      if approvedNow then some state.draft_text else state.final_approved_text
    is_approved := approvedNow
    compliance_flags :=
      if !approvedNow && !(state.compliance_flags.contains feedback) then
        state.compliance_flags ++ [feedback]
      else state.compliance_flags
    agent_execution_log := state.agent_execution_log ++
      [log_agent_action state "Reviewer" "compliance_check" feedback
        (reviewerStatus llm) ts] }

/-- The image-generation prompt built by `art_director_node`
(src/main.py lines 419-424): the product brief plus a fixed style directive.
No draft or approved copy flows into it. -/
def artDirectorImagePrompt (state : CreativeWorkflowState) : String :=
  let product := state.user_prompt
  "Professional product photography and marketing design. " ++
  "Product: " ++ product ++ ". " ++
  "Style: High-quality, clean background, vibrant colors, modern marketing aesthetic. " ++
  "Resolution: 4K, studio lighting, professional product shot."

/-- `art_director_node` (src/main.py lines 395-446): sends the image prompt to
the image service (modelled as a function from prompt to returned reference,
since `generate_image_with_hf` converts every failure into a string), stores
the reference, increments `current_iteration`, appends one log entry. -/
def art_director_node (state : CreativeWorkflowState)
    (imgService : String → String) (ts : String) : CreativeWorkflowState :=
  let image_url := imgService (artDirectorImagePrompt state)
  { state with
    image_url := image_url
    current_iteration := state.current_iteration + 1
    agent_execution_log := state.agent_execution_log ++
      [log_agent_action state "Art Director" "image_generation" image_url
        "SUCCESS" ts] }

/-- `router_function` (src/main.py lines 453-497): forced proceed once
`retries` exceeds the ceiling of 3, else proceed on an APPROVED substring in
the uppercased latest feedback, else revise. -/
def router_function (state : CreativeWorkflowState) : String :=
  let max_retries := 3
  let latest_feedback := state.review_feedback.getLastD ""
  if state.retries > max_retries then "generate_image"
  else if strContains (pyUpper latest_feedback) "APPROVED" then "generate_image"
  else "revise_draft"

/-- The phase of the compiled graph: which node runs next, or END. -/
inductive Phase where
  | writer
  | reviewer
  | artDirector
  | done
deriving DecidableEq

/-- A configuration of the workflow driver: current phase plus state. -/
structure Config where
  phase : Phase
  state : CreativeWorkflowState

/-- The external inputs consumed by one step of the driver: the outcome of a
writer or reviewer generation call (some text, or none for a service failure
that triggers the fallback), the image service, and the wall-clock timestamp
used for the log entry. -/
structure StepInput where
  writerLLM : Option String
  reviewerLLM : Option String
  imgService : String → String
  ts : String

/-- One transition of the compiled graph (src/main.py lines 507-533):
writer then reviewer, the conditional edge routed by `router_function`
(generate_image to the art director, revise_draft back to the writer), the
art director then END.  END is absorbing. -/
def step (c : Config) (inp : StepInput) : Config :=
  match c.phase with
  | Phase.writer => ⟨Phase.reviewer, writer_node c.state inp.writerLLM inp.ts⟩
  | Phase.reviewer =>
    let s := reviewer_node c.state inp.reviewerLLM inp.ts
    if router_function s = "generate_image" then ⟨Phase.artDirector, s⟩
    else ⟨Phase.writer, s⟩
  | Phase.artDirector => ⟨Phase.done, art_director_node c.state inp.imgService inp.ts⟩
  | Phase.done => c

/-- The initial workflow state built by `run_campaign_generator`
(src/main.py lines 569-581). -/
def initState (brief : String) : CreativeWorkflowState :=
  { user_prompt := brief
    draft_text := ""
    review_feedback := []
    final_approved_text := none
    image_url := ""
    retries := 0
    current_iteration := 0
    agent_execution_log := []
    compliance_flags := []
    is_approved := false }

/-- The initial configuration: entry point is the writer node
(src/main.py line 515). -/
def initConfig (brief : String) : Config :=
  ⟨Phase.writer, initState brief⟩

/-- Run `n` transitions of the driver, feeding the external inputs
`oracle 0, oracle 1, ...` in order. -/
def runN : (Nat → StepInput) → Nat → Config → Config
  | _, 0, c => c
  | oracle, n + 1, c => runN (fun k => oracle (k + 1)) n (step c (oracle 0))

/-- The final result record returned by `run_campaign_generator` on success
(src/main.py lines 660-669). -/
structure CampaignResult where
  final_approved_text : String
  image_url : String
  retries : Nat
  review_feedback : List String
  compliance_flags : List String
  execution_time : Nat
  agent_log : List LogEntry
  is_approved : Bool

/-- The result-field extraction of `run_campaign_generator` (src/main.py lines
622 and 660-669): the approved copy falls back to the latest draft when the
approved text is absent or empty (Python `or`). -/
def resultOfState (st : CreativeWorkflowState) (duration : Nat) : CampaignResult :=
  { final_approved_text :=
      match st.final_approved_text with
      | some t => if t = "" then st.draft_text else t
      | none => st.draft_text
    image_url := st.image_url
    retries := st.retries
    review_feedback := st.review_feedback
    compliance_flags := st.compliance_flags
    execution_time := duration
    agent_log := st.agent_execution_log
    is_approved := st.is_approved }

/-- Models `app.stream` with its recursion limit of 10 (src/main.py line 586):
the external framework advances the compiled graph one node at a time; when
END is reached within the limit, the final event carries the resulting
campaign state; exceeding the limit raises, which the caller converts into an
absent result. -/
def streamFinal (brief : String) (oracle : Nat → StepInput) :
    Option CreativeWorkflowState :=
  let c := runN oracle 10 (initConfig brief)
  if c.phase = Phase.done then some c.state else none

/-- `run_campaign_generator` (src/main.py lines 545-669): build the initial
state, stream the workflow to completion, and return either the complete
result record or no result on a workflow error. The wall-clock duration it
reports is an input here. -/
def run_campaign_generator (brief : String) (oracle : Nat → StepInput)
    (duration : Nat) : Option CampaignResult :=
  match streamFinal brief oracle with
  | none => none
  | some st => some (resultOfState st duration)

/-- Termination measure on driver configurations: an upper bound on the number
of remaining transitions before END, driven by the retry counter. -/
def rank (c : Config) : Nat :=
  match c.phase with
  | Phase.done => 0
  | Phase.artDirector => 1
  | Phase.reviewer => 2 + 2 * (4 - c.state.retries)
  | Phase.writer => 3 + 2 * (4 - (c.state.retries + 1))

/-- The external outcomes used by the C4 counterexample: the writer call
always fails (templated fallback drafts) and the reviewer always returns the
same rejection. -/
def oracleC4 : Nat → StepInput := fun _ =>
  { writerLLM := none, reviewerLLM := some "[CLAIM] too vague",
    imgService := fun _ => "img.png", ts := "t" }

/-- The state used by the witness of C5: a fresh campaign with a draft under
review. -/
def stateC5 : CreativeWorkflowState :=
  { initState "solar lamp" with draft_text := "Bright and easy" }

/-- The step input used by the witness of C5: the reviewer call returns a
malformed verdict that matches neither the marker nor a recognized tag. -/
def inputC5 : StepInput :=
  { writerLLM := none, reviewerLLM := some "totally nonsense output",
    imgService := fun p => p, ts := "t1" }

/-- The state used by the witness of C6: the tone verdict is already flagged. -/
def stateC6 : CreativeWorkflowState :=
  { initState "water bottle" with
    draft_text := "A calm drink",
    compliance_flags := ["[TONE] Avoid negative language"] }

/-!
Helper lemmas about the nodes, the router and the driver.
-/

theorem writer_node_retries (s : CreativeWorkflowState) (llm : Option String)
    (ts : String) : (writer_node s llm ts).retries = s.retries + 1 := rfl

theorem reviewer_node_retries (s : CreativeWorkflowState) (llm : Option String)
    (ts : String) : (reviewer_node s llm ts).retries = s.retries := rfl

theorem router_of_retries_gt (s : CreativeWorkflowState) (h : 3 < s.retries) :
    router_function s = "generate_image" := by
  unfold router_function
  simp only []
  rw [if_pos h]

theorem rank_eq_zero_of_done (c : Config) (h : c.phase = Phase.done) :
    rank c = 0 := by
  obtain ⟨ph, st⟩ := c
  cases ph <;> simp_all [rank]

theorem phase_done_of_rank_eq_zero (c : Config) (h : rank c = 0) :
    c.phase = Phase.done := by
  obtain ⟨ph, st⟩ := c
  cases ph <;> simp_all [rank]

theorem step_done (c : Config) (inp : StepInput) (h : c.phase = Phase.done) :
    step c inp = c := by
  obtain ⟨ph, st⟩ := c
  cases ph <;> simp_all [step]

/-- Every transition from a non-terminal configuration strictly decreases the
termination measure: the writer always bumps the retry counter and the router
can only send the flow back to the writer while the counter is at most 3. -/
theorem rank_step_lt (c : Config) (inp : StepInput) (h : c.phase ≠ Phase.done) :
    rank (step c inp) < rank c := by
  obtain ⟨ph, st⟩ := c
  cases ph with
  | writer =>
    show rank ⟨Phase.reviewer, writer_node st inp.writerLLM inp.ts⟩ <
      rank ⟨Phase.writer, st⟩
    simp only [rank, writer_node_retries]
    omega
  | reviewer =>
    by_cases hr :
        router_function (reviewer_node st inp.reviewerLLM inp.ts) = "generate_image"
    · have hstep : step ⟨Phase.reviewer, st⟩ inp =
          ⟨Phase.artDirector, reviewer_node st inp.reviewerLLM inp.ts⟩ := by
        simp [step, hr]
      rw [hstep]
      simp only [rank]
      omega
    · have hstep : step ⟨Phase.reviewer, st⟩ inp =
          ⟨Phase.writer, reviewer_node st inp.reviewerLLM inp.ts⟩ := by
        simp [step, hr]
      have hle : st.retries ≤ 3 := by
        by_contra hgt
        push_neg at hgt
        have h3 : 3 < (reviewer_node st inp.reviewerLLM inp.ts).retries := by
          rw [reviewer_node_retries]; exact hgt
        exact hr (router_of_retries_gt _ h3)
      rw [hstep]
      simp only [rank, reviewer_node_retries]
      omega
  | artDirector =>
    show rank ⟨Phase.done, _⟩ < rank ⟨Phase.artDirector, st⟩
    simp [rank]
  | done => exact absurd rfl h

/-- If the measure is at most the remaining fuel, the driver is at END after
running out the fuel: the core termination argument. -/
theorem done_of_rank_le :
    ∀ (n : Nat) (oracle : Nat → StepInput) (c : Config), rank c ≤ n →
      (runN oracle n c).phase = Phase.done := by
  intro n
  induction n with
  | zero =>
    intro oracle c h
    exact phase_done_of_rank_eq_zero c (Nat.le_zero.mp h)
  | succ n ih =>
    intro oracle c h
    rw [runN]
    by_cases hd : c.phase = Phase.done
    · rw [step_done c (oracle 0) hd]
      exact ih _ c (by rw [rank_eq_zero_of_done c hd]; exact Nat.zero_le n)
    · have hlt := rank_step_lt c (oracle 0) hd
      exact ih _ _ (by omega)

/-!
The claims.
-/

/-- Claim C1: for every input brief and every sequence of external outcomes —
in particular reviewer verdict strings that never signal approval — the driver
reaches the terminal END phase within retry ceiling (3) plus step ceiling (10)
transitions.  No input causes non-termination, because the router forces
proceed once the retry counter exceeds the ceiling. -/
theorem driver_terminates (brief : String) (oracle : Nat → StepInput) :
    (runN oracle (3 + 10) (initConfig brief)).phase = Phase.done := by
  apply done_of_rank_le
  have h : rank (initConfig brief) = 9 := rfl
  omega

/-- Claim C2: whenever `retries` exceeds the ceiling of 3 at routing time, the
router returns the proceed transition `generate_image` regardless of the
latest feedback content; below the ceiling the decision is first-match —
approval substring sends the flow forward, anything else sends it back. -/
theorem router_forced_proceed_and_order (s : CreativeWorkflowState) :
    (3 < s.retries → router_function s = "generate_image")
    ∧ (s.retries ≤ 3 →
        strContains (pyUpper (s.review_feedback.getLastD "")) "APPROVED" = true →
        router_function s = "generate_image")
    ∧ (s.retries ≤ 3 →
        strContains (pyUpper (s.review_feedback.getLastD "")) "APPROVED" = false →
        router_function s = "revise_draft") := by
  refine ⟨router_of_retries_gt s, ?_, ?_⟩ <;>
    intro hle hc <;> unfold router_function <;> simp only [] <;>
    rw [if_neg (by omega)] <;>
    simp only [List.getLastD_eq_getLast?] at hc ⊢ <;> simp [hc]

/-- Witness for C2: with the counter at 4 and a latest feedback that is an
explicit rejection, the router still proceeds to asset generation. -/
theorem router_forced_proceed_and_order_witness :
    router_function
      { user_prompt := "p", draft_text := "d",
        review_feedback := ["[TONE] still too flat"], final_approved_text := none,
        image_url := "", retries := 4, current_iteration := 4,
        agent_execution_log := [], compliance_flags := [], is_approved := false }
      = "generate_image" :=
  (router_forced_proceed_and_order _).1 (by decide)

/-- Claim C9: across every transition, `retries` and `current_iteration` never
decrease; `retries` grows by exactly one on a writer transition and is
unchanged on every other transition; `review_feedback` is append-only, gaining
exactly the one produced verdict on a reviewer transition and nothing
elsewhere. -/
theorem counters_monotone_feedback_append_only (c : Config) (inp : StepInput) :
    c.state.retries ≤ (step c inp).state.retries
    ∧ c.state.current_iteration ≤ (step c inp).state.current_iteration
    ∧ (step c inp).state.retries =
        c.state.retries + (if c.phase = Phase.writer then 1 else 0)
    ∧ (step c inp).state.review_feedback =
        c.state.review_feedback ++
          (if c.phase = Phase.reviewer then
            [reviewerVerdict c.state inp.reviewerLLM] else []) := by
  obtain ⟨ph, st⟩ := c
  cases ph with
  | writer => simp [step, writer_node]
  | reviewer =>
    have hstate : (step ⟨Phase.reviewer, st⟩ inp).state =
        reviewer_node st inp.reviewerLLM inp.ts := by
      by_cases hr :
          router_function (reviewer_node st inp.reviewerLLM inp.ts) = "generate_image" <;>
        simp [step, hr]
    rw [hstate]
    simp [reviewer_node]
  | artDirector => simp [step, art_director_node]
  | done => simp [step]

/-- Counterexample to C3 as stated: a rejection verdict that merely contains
the word approved is classified as an approval — `is_approved` becomes true
even though the appended feedback entry is not the literal APPROVED marker. -/
theorem approval_marker_counterexample :
    ((reviewer_node { initState "bamboo bottle" with draft_text := "Nice bottle" }
        (some "[OTHER] references a previously approved claim") "t0").is_approved
      = true)
    ∧ ((reviewer_node { initState "bamboo bottle" with draft_text := "Nice bottle" }
        (some "[OTHER] references a previously approved claim")
        "t0").review_feedback.getLastD "" ≠ "APPROVED") := by decide

/-- Claim C3 (amended): after every reviewer step, `is_approved` is true iff
the most recently appended feedback entry contains the approval marker
APPROVED as a substring of its uppercasing — the code sniffs for the substring
rather than comparing the entry to the marker for equality. -/
theorem is_approved_iff_marker_in_latest (s : CreativeWorkflowState)
    (llm : Option String) (ts : String) :
    (reviewer_node s llm ts).is_approved = true ↔
      strContains
        (pyUpper ((reviewer_node s llm ts).review_feedback.getLastD ""))
        "APPROVED" = true := by
  have hlast : (reviewer_node s llm ts).review_feedback.getLastD "" =
      reviewerVerdict s llm := by
    simp [reviewer_node]
  rw [hlast]
  simp [reviewer_node]

/-- Claim C5: a reviewer output whose (trimmed, uppercased) text does not
contain the approval marker — in particular any malformed verdict matching no
recognized tag — is handled as an ordinary rejection, not a fatal error: the
step leaves approval unset, records the verdict verbatim in the feedback
history and the compliance flags, and the driver keeps moving (back to the
writer or on to the art director). -/
theorem malformed_verdict_is_nonfatal_rejection (s : CreativeWorkflowState)
    (v : String) (inp : StepInput)
    (hin : inp.reviewerLLM = some v)
    (hm : strContains (pyUpper (pyStrip v)) "APPROVED" = false) :
    ((reviewer_node s inp.reviewerLLM inp.ts).is_approved = false)
    ∧ ((reviewer_node s inp.reviewerLLM inp.ts).review_feedback =
        s.review_feedback ++ [pyStrip v])
    ∧ ((reviewer_node s inp.reviewerLLM inp.ts).compliance_flags.contains
        (pyStrip v) = true)
    ∧ ((step ⟨Phase.reviewer, s⟩ inp).phase = Phase.writer
        ∨ (step ⟨Phase.reviewer, s⟩ inp).phase = Phase.artDirector) := by
  refine ⟨?_, ?_, ?_, ?_⟩
  · simp [reviewer_node, reviewerVerdict, hin, hm]
  · simp [reviewer_node, reviewerVerdict, hin]
  · by_cases hc : s.compliance_flags.contains (pyStrip v) = true <;>
      simp_all [reviewer_node, reviewerVerdict, hin, hm, List.contains]
  · by_cases hr :
        router_function (reviewer_node s inp.reviewerLLM inp.ts) = "generate_image"
    · right; simp [step, hr]
    · left; simp [step, hr]

/-- Witness for C5: the malformed verdict is recorded as a rejection and the
workflow moves on. -/
theorem malformed_verdict_is_nonfatal_rejection_witness :
    ((reviewer_node stateC5 inputC5.reviewerLLM inputC5.ts).is_approved = false)
    ∧ ((reviewer_node stateC5 inputC5.reviewerLLM inputC5.ts).review_feedback =
        stateC5.review_feedback ++ [pyStrip "totally nonsense output"])
    ∧ ((reviewer_node stateC5 inputC5.reviewerLLM inputC5.ts).compliance_flags.contains
        (pyStrip "totally nonsense output") = true)
    ∧ ((step ⟨Phase.reviewer, stateC5⟩ inputC5).phase = Phase.writer
        ∨ (step ⟨Phase.reviewer, stateC5⟩ inputC5).phase = Phase.artDirector) :=
  malformed_verdict_is_nonfatal_rejection stateC5 "totally nonsense output"
    inputC5 rfl (by decide)

/-- Claim C6: flag accumulation is idempotent per verdict text — if the
verdict the reviewer produces is already among the compliance flags, the flag
list is left unchanged; and a reviewer step preserves freedom from duplicates,
so one run never holds two flag entries with the same text. -/
theorem compliance_flags_dedup (s : CreativeWorkflowState) (llm : Option String)
    (ts : String) :
    (s.compliance_flags.contains (reviewerVerdict s llm) = true →
      (reviewer_node s llm ts).compliance_flags = s.compliance_flags)
    ∧ (s.compliance_flags.Nodup → (reviewer_node s llm ts).compliance_flags.Nodup) := by
  constructor
  · intro hc
    have hmem : reviewerVerdict s llm ∈ s.compliance_flags := by
      simpa [List.contains] using hc
    simp [reviewer_node, List.contains, hmem]
  · intro hnd
    simp only [reviewer_node]
    split
    · rename_i hcond
      have hmem : reviewerVerdict s llm ∉ s.compliance_flags := by
        simp only [Bool.and_eq_true, Bool.not_eq_true] at hcond
        simpa [List.contains] using hcond.2
      simp [List.nodup_append, hnd, hmem]
    · exact hnd

/-- Witness for C6: the reviewer reproduces the already-flagged verdict and
the flag list is unchanged and still duplicate-free. -/
theorem compliance_flags_dedup_witness :
    ((reviewer_node stateC6 (some "[TONE] Avoid negative language") "t2").compliance_flags
      = stateC6.compliance_flags)
    ∧ (reviewer_node stateC6 (some "[TONE] Avoid negative language") "t2").compliance_flags.Nodup :=
  ⟨(compliance_flags_dedup stateC6 (some "[TONE] Avoid negative language") "t2").1 (by decide),
   (compliance_flags_dedup stateC6 (some "[TONE] Avoid negative language") "t2").2 (by decide)⟩

/-- Claim C7: the fallback rule-based reviewer yields exactly one verdict,
selected first-match in the fixed order claim-phrase check, then tone check,
then length check (draft longer than 280 characters); when no rule matches,
the verdict is the approval marker. -/
theorem fallback_reviewer_first_match (draft : String) :
    (∀ p, banned_phrases.find? (fun q => strContains (pyLower draft) q) = some p →
      ruleBasedFeedback draft = "[CLAIM] Remove unverified claim: \x27" ++ p ++ "\x27")
    ∧ (banned_phrases.all (fun q => !strContains (pyLower draft) q) = true →
        negative_words.any (fun w => strContains (pyLower draft) w) = true →
        ruleBasedFeedback draft = "[TONE] Avoid negative language")
    ∧ (banned_phrases.all (fun q => !strContains (pyLower draft) q) = true →
        negative_words.any (fun w => strContains (pyLower draft) w) = false →
        280 < pyLen draft →
        ruleBasedFeedback draft = "[CLARITY] Keep under 280 characters for social media")
    ∧ (banned_phrases.all (fun q => !strContains (pyLower draft) q) = true →
        negative_words.any (fun w => strContains (pyLower draft) w) = false →
        pyLen draft ≤ 280 →
        ruleBasedFeedback draft = "APPROVED") := by
  have hnone : banned_phrases.all (fun q => !strContains (pyLower draft) q) = true →
      banned_phrases.find? (fun q => strContains (pyLower draft) q) = none := by
    intro hall
    rw [List.find?_eq_none]
    intro x hx
    have hx2 := List.all_eq_true.mp hall x hx
    simp only [Bool.not_eq_true'] at hx2
    simp [hx2]
  refine ⟨?_, ?_, ?_, ?_⟩
  · intro p hp
    simp [ruleBasedFeedback, hp]
  · intro hall hneg
    simp [ruleBasedFeedback, hnone hall, hneg]
  · intro hall hneg hlen
    simp [ruleBasedFeedback, hnone hall, hneg, hlen]
  · intro hall hneg hlen
    simp [ruleBasedFeedback, hnone hall, hneg, Nat.not_lt.mpr hlen]

/-- Witness for C7: a draft that triggers both the claim rule and the tone
rule gets the claim verdict, for the first matching phrase in source order. -/
theorem fallback_reviewer_first_match_witness :
    ruleBasedFeedback "Our juice is guaranteed to fix any problem" =
      "[CLAIM] Remove unverified claim: \x27guarantee\x27" :=
  (fallback_reviewer_first_match _).1 "guarantee" (by decide)

/-- Claim C10: the image-generation prompt built by the art director is a
function of the input brief alone — two states that agree on `user_prompt`
yield the identical prompt, whatever their drafts, approved text or feedback
histories; the approved copy text never flows into the image request. -/
theorem image_prompt_depends_only_on_brief (s1 s2 : CreativeWorkflowState)
    (h : s1.user_prompt = s2.user_prompt) :
    artDirectorImagePrompt s1 = artDirectorImagePrompt s2 := by
  simp [artDirectorImagePrompt, h]

/-- Witness for C10: two states with the same brief but different drafts,
approved text and feedback get the same image prompt. -/
theorem image_prompt_depends_only_on_brief_witness :
    artDirectorImagePrompt { initState "smart mug" with draft_text := "Keep it hot" }
      = artDirectorImagePrompt
          { initState "smart mug" with
            draft_text := "Cool mug!", final_approved_text := some "Cool mug!",
            review_feedback := ["APPROVED"] } :=
  image_prompt_depends_only_on_brief _ _ rfl

/-- Counterexample to C4 as stated: in the run driven by `oracleC4`, the
fourth transition is a reviewer step whose verdict is a rejection, yet the
draft the writer produces immediately afterwards (fifth transition) is
character-for-character the draft that was reviewed — the fallback template
repeats itself once feedback exists, so a post-rejection draft need not
differ from the reviewed one. -/
theorem feedback_propagation_counterexample :
    ((runN oracleC4 4 (initConfig "bamboo water bottle")).state.is_approved = false)
    ∧ ((runN oracleC4 5 (initConfig "bamboo water bottle")).state.draft_text
        = (runN oracleC4 4 (initConfig "bamboo water bottle")).state.draft_text) := by
  decide

theorem string_append_data (a b : String) : (a ++ b).data = a.data ++ b.data := by
  cases a
  cases b
  rfl

/-- The two fallback templates never coincide: whatever the product text and
the template tails, the revised draft and the initial draft differ in their
first character. -/
theorem fallback_templates_differ (x y : String) :
    ("🌟 Discover " ++ x) ≠ ("✨ NEW: " ++ y) := by
  intro h
  have hd := congrArg String.data h
  rw [string_append_data, string_append_data] at hd
  have hcons : ('🌟' :: (" Discover ".data ++ x.data))
      = ('✨' :: (" NEW: ".data ++ y.data)) := hd
  injection hcons with hhead _
  exact absurd hhead (by decide)

/-- Claim C4 (amended): when the reviewed draft was produced with an empty
feedback history (the first attempt) on the fallback path and the verdict on
it is a rejection, the fallback draft produced immediately afterwards differs
from the reviewed draft.  (As stated the claim fails: from the second
rejection on, the fallback revision template reproduces the previous draft
verbatim, per the counterexample.) -/
theorem fallback_revision_differs_after_first_rejection
    (s : CreativeWorkflowState) (llmRev : Option String) (ts1 ts2 ts3 : String)
    (hempty : s.review_feedback = [])
    (_hrej : (reviewer_node (writer_node s none ts1) llmRev ts2).is_approved = false) :
    (writer_node (reviewer_node (writer_node s none ts1) llmRev ts2) none ts3).draft_text
      ≠ (writer_node s none ts1).draft_text := by
  have h1 : (writer_node s none ts1).draft_text =
      "✨ NEW: " ++ (pyTake s.user_prompt 40 ++
        "! Perfect for the modern lifestyle. Shop today! 🚀") := by
    simp [writer_node, writerDraft, hempty, String.append_assoc]
  have h2 : (writer_node (reviewer_node (writer_node s none ts1) llmRev ts2) none ts3).draft_text =
      "🌟 Discover " ++ (pyTake s.user_prompt 40 ++
        "! Eco-conscious. Quality crafted. Get yours now! 💚") := by
    simp [writer_node, reviewer_node, writerDraft, hempty, String.append_assoc]
  rw [h1, h2]
  exact fallback_templates_differ _ _

/-- Witness for the amended C4: on a fresh campaign whose first draft is the
fallback template and whose first verdict is a rejection, the next fallback
draft differs from the first. -/
theorem fallback_revision_differs_after_first_rejection_witness :
    (writer_node (reviewer_node (writer_node (initState "herbal tea") none "t1")
        (some "[CLAIM] too vague") "t2") none "t3").draft_text
      ≠ (writer_node (initState "herbal tea") none "t1").draft_text :=
  fallback_revision_differs_after_first_rejection (initState "herbal tea")
    (some "[CLAIM] too vague") "t1" "t2" "t3" rfl (by decide)

/-- Claim C8: for every brief and every sequence of collaborator outcomes —
degraded fallbacks included — the run entry point returns the one fully
populated result record built from the final workflow state (approved text,
image reference, counts, feedback history, flags, approval, duration, log),
never a partially populated one; the explicit failure signal (no result) is
reserved for the fatal paths such as exceeding the step ceiling, which no
input reaches because the loop finishes well inside the ceiling. -/
theorem entry_point_returns_complete_result (brief : String)
    (oracle : Nat → StepInput) (duration : Nat) :
    run_campaign_generator brief oracle duration =
      some (resultOfState (runN oracle 10 (initConfig brief)).state duration) := by
  have hdone : (runN oracle 10 (initConfig brief)).phase = Phase.done := by
    apply done_of_rank_le
    have h : rank (initConfig brief) = 9 := rfl
    omega
  unfold run_campaign_generator streamFinal
  simp [hdone]

end CreativeCoPilot
